import Mathlib

/-!
Verification of the expiring insert-once cache in
`autarch/go-google-calendarbot` (`calendarbot.go`), as a shallow embedding.

Modelling choices:
- `time.Time` and `time.Duration` are modelled as `Int` (a point on the
  nanosecond timeline, resp. a signed nanosecond count); `t.Before(u)` is
  `t < u` and `t.Add(d)` is `t + d`.
- Each cache operation takes the current reading of `time.Now()` as an
  explicit parameter `now`; the two `time.Now()` calls inside one `Add`
  invocation are the same reading.  The mutex of `memoryCache` makes each
  call one atomic step on the map, which is what sequential state passing
  gives us, so the lock itself is not represented.
- The Go map `map[string]cacheEntry` is an association list with the usual
  pointwise lookup/insert/delete semantics.
- Go errors are dynamically typed values probed for method sets.  The only
  niladic `bool` methods this program ever declares or asserts on are
  `CacheMiss` (required by the `cacheError` interface) and `IsCacheMiss`
  (declared on `cacheMissError`), so an error value is modelled by its
  `Error()` string together with those two optional methods.
-/

set_option autoImplicit false

/-- Payload bytes (`[]byte`), each byte a `Nat`. -/
abbrev Bytes := List Nat

/-- Method set of a Go error value: its `Error()` string plus the two
niladic bool methods this program mentions, each `some b` when the dynamic
type implements it with result `b` and `none` when it does not. -/
structure GoError where
  errorString : String
  cacheMissMethod : Option Bool
  isCacheMissMethod : Option Bool
deriving DecidableEq, Repr

/-- The value `cacheMissError\x7b\x7d` from calendarbot.go: its dynamic type
declares `IsCacheMiss() bool` returning `true` and `Error() string`
returning "cache miss"; it declares no method named `CacheMiss`. -/
def cacheMissError : GoError :=
  { errorString := "cache miss"
    cacheMissMethod := none
    isCacheMissMethod := some true }

/-- An error built by `errors.New(msg)` (github.com/pkg/errors): an opaque
error with neither of the two probe methods. -/
def errorsNew (msg : String) : GoError :=
  { errorString := msg
    cacheMissMethod := none
    isCacheMissMethod := none }

/-- Embedding of `func IsCacheMiss(err error) bool`: type-assert `err` to
the interface `cacheError \x7b CacheMiss() bool \x7d` — which succeeds
exactly when the dynamic type has a method named `CacheMiss` — and return
its result, else `false`. -/
def IsCacheMiss (err : GoError) : Bool :=
  match err.cacheMissMethod with
  | some b => b
  | none => false

/-- Embedding of `type cacheEntry struct` (Value []byte, Expires time.Time). -/
structure cacheEntry where
  Value : Bytes
  Expires : Int
deriving DecidableEq, Repr

/-- The key-to-entry mapping of the cache (`map[string]cacheEntry`). -/
abbrev CacheData := List (String × cacheEntry)

/-- Go map read `m[key]`. -/
def mapLookup (m : CacheData) (key : String) : Option cacheEntry :=
  match m with
  | [] => none
  | (k, e) :: rest => if k = key then some e else mapLookup rest key

/-- Go built-in `delete(m, key)`. -/
def mapDelete (m : CacheData) (key : String) : CacheData :=
  match m with
  | [] => []
  | (k, e) :: rest =>
    if k = key then mapDelete rest key else (k, e) :: mapDelete rest key

/-- Go map write `m[key] = e`. -/
def mapInsert (m : CacheData) (key : String) (e : cacheEntry) : CacheData :=
  (key, e) :: mapDelete m key

/-- Embedding of `type memoryCache struct` (the mutex is represented by
each operation being a single atomic step). -/
structure memoryCache where
  data : CacheData
deriving DecidableEq, Repr

/-- Result of `memoryCache.Add`: the cache state after the call and the
returned `error` (`none` for Go `nil`). -/
structure AddResult where
  cache : memoryCache
  err : Option GoError
deriving DecidableEq, Repr

/-- Result of `memoryCache.Get`: the cache state after the call, the
returned `interface\x7b\x7d` success value (the stored entry, or `none` for
Go `nil`), and the returned `error`. -/
structure GetResult where
  cache : memoryCache
  value : Option cacheEntry
  err : Option GoError
deriving DecidableEq, Repr

/-- Embedding of `func (c *memoryCache) Add(ctx, key, val, expires)`:
if `key` is present, delete it when its `Expires` is before `now`, and in
either case return the error `errors.New("entry exists")`; if `key` is
absent, store `cacheEntry\x7bval, now+expires\x7d` and return `nil`. -/
def memoryCache.Add (c : memoryCache) (now : Int) (key : String)
    (val : Bytes) (expires : Int) : AddResult :=
  match mapLookup c.data key with
  | some e =>
    { cache := ⟨if e.Expires < now then mapDelete c.data key else c.data⟩
      err := some (errorsNew "entry exists") }
  | none =>
    { cache := ⟨mapInsert c.data key { Value := val, Expires := now + expires }⟩
      err := none }

/-- Embedding of `func (c *memoryCache) Get(ctx, key)`: if `key` is absent,
return `(nil, cacheMissError\x7b\x7d)`; if present but `Expires` is before
`now`, delete it and return `(nil, cacheMissError\x7b\x7d)`; otherwise
return the stored entry with a `nil` error. -/
def memoryCache.Get (c : memoryCache) (now : Int) (key : String) : GetResult :=
  match mapLookup c.data key with
  | none => { cache := c, value := none, err := some cacheMissError }
  | some e =>
    if e.Expires < now then
      { cache := ⟨mapDelete c.data key⟩, value := none, err := some cacheMissError }
    else
      { cache := c, value := some e, err := none }

/-- The key `key` is, in `d`, either absent or bound to an entry not yet
expired at time `now`. -/
def keyAbsentOrUnexpired (d : CacheData) (key : String) (now : Int) : Bool :=
  match mapLookup d key with
  | none => true
  | some e => !(decide (e.Expires < now))

theorem mapLookup_mapDelete_self (m : CacheData) (key : String) :
    mapLookup (mapDelete m key) key = none := by
  induction m with
  | nil => rfl
  | cons p rest ih =>
    obtain ⟨k, e⟩ := p
    by_cases h : k = key
    · simpa [mapDelete, h] using ih
    · simpa [mapDelete, mapLookup, h] using ih

theorem mapLookup_mapInsert_self (m : CacheData) (key : String) (e : cacheEntry) :
    mapLookup (mapInsert m key e) key = some e := by
  simp [mapInsert, mapLookup]

/-- C1: calendarbot.go intends `IsCacheMiss` to recognise the error that
`Get` returns on a miss, but the type assertion inside `IsCacheMiss`
requires a method named `CacheMiss`, while `cacheMissError` only declares
`IsCacheMiss`; so the miss error returned by `Get` on an absent key is not
classified as a cache miss. -/
theorem C1_get_miss_not_detected :
    (memoryCache.Get ⟨[]⟩ 0 "evt1").err = some cacheMissError ∧
      IsCacheMiss cacheMissError = false ∧
      cacheMissError.isCacheMissMethod = some true := by
  decide

/-- C2: adding an absent key with positive ttl succeeds, stores the value
with expiry `now + ttl`, and an immediately following `Get` of the same key
returns that stored entry with no error. -/
theorem C2_add_then_get (c : memoryCache) (now : Int) (k : String)
    (v : Bytes) (ttl : Int) (habs : mapLookup c.data k = none)
    (httl : 0 < ttl) :
    (c.Add now k v ttl).err = none ∧
      mapLookup (c.Add now k v ttl).cache.data k = some ⟨v, now + ttl⟩ ∧
      ((c.Add now k v ttl).cache.Get now k).value = some ⟨v, now + ttl⟩ ∧
      ((c.Add now k v ttl).cache.Get now k).err = none := by
  have hnotlt : ¬ (now + ttl < now) := by omega
  simp [memoryCache.Add, memoryCache.Get, habs, mapLookup_mapInsert_self, hnotlt]

theorem C2_witness :
    mapLookup (⟨[]⟩ : memoryCache).data "evt1" = none ∧ (0 : Int) < 900 ∧
      ((memoryCache.Add ⟨[]⟩ 0 "evt1" [1] 900).err = none ∧
        mapLookup (memoryCache.Add ⟨[]⟩ 0 "evt1" [1] 900).cache.data "evt1" =
          some ⟨[1], 0 + 900⟩ ∧
        ((memoryCache.Add ⟨[]⟩ 0 "evt1" [1] 900).cache.Get 0 "evt1").value =
          some ⟨[1], 0 + 900⟩ ∧
        ((memoryCache.Add ⟨[]⟩ 0 "evt1" [1] 900).cache.Get 0 "evt1").err = none) :=
  ⟨by decide, by decide,
    C2_add_then_get ⟨[]⟩ 0 "evt1" [1] 900 (by decide) (by decide)⟩

/-- C3: a second `Add` on a key holding an unexpired entry returns the
entry-exists error, leaves the whole mapping unchanged, and the original
entry is still returned unchanged by `Get`. -/
theorem C3_add_on_unexpired (c : memoryCache) (now : Int) (k : String)
    (e : cacheEntry) (v2 : Bytes) (ttl2 : Int)
    (hpres : mapLookup c.data k = some e) (hunexp : ¬ e.Expires < now) :
    (c.Add now k v2 ttl2).err = some (errorsNew "entry exists") ∧
      (c.Add now k v2 ttl2).cache = c ∧
      ((c.Add now k v2 ttl2).cache.Get now k).value = some e ∧
      ((c.Add now k v2 ttl2).cache.Get now k).err = none := by
  simp [memoryCache.Add, memoryCache.Get, hpres, hunexp]

theorem C3_witness :
    mapLookup (⟨[("evt1", ⟨[1], 900⟩)]⟩ : memoryCache).data "evt1" =
        some ⟨[1], 900⟩ ∧
      ¬ (⟨[1], 900⟩ : cacheEntry).Expires < 10 ∧
      ((memoryCache.Add ⟨[("evt1", ⟨[1], 900⟩)]⟩ 10 "evt1" [2] 900).err =
          some (errorsNew "entry exists") ∧
        (memoryCache.Add ⟨[("evt1", ⟨[1], 900⟩)]⟩ 10 "evt1" [2] 900).cache =
          ⟨[("evt1", ⟨[1], 900⟩)]⟩ ∧
        ((memoryCache.Add ⟨[("evt1", ⟨[1], 900⟩)]⟩ 10 "evt1" [2] 900).cache.Get
            10 "evt1").value = some ⟨[1], 900⟩ ∧
        ((memoryCache.Add ⟨[("evt1", ⟨[1], 900⟩)]⟩ 10 "evt1" [2] 900).cache.Get
            10 "evt1").err = none) :=
  ⟨by decide, by decide,
    C3_add_on_unexpired ⟨[("evt1", ⟨[1], 900⟩)]⟩ 10 "evt1" ⟨[1], 900⟩ [2] 900
      (by decide) (by decide)⟩

/-- C4: an `Add` on a key holding an expired entry removes the entry yet
still returns the entry-exists error without inserting the new value, and
a following `Add` for the same key then succeeds. -/
theorem C4_add_on_expired (c : memoryCache) (now now2 : Int) (k : String)
    (e : cacheEntry) (v3 : Bytes) (ttl3 : Int) (v4 : Bytes) (ttl4 : Int)
    (hpres : mapLookup c.data k = some e) (hexp : e.Expires < now) :
    (c.Add now k v3 ttl3).err = some (errorsNew "entry exists") ∧
      mapLookup (c.Add now k v3 ttl3).cache.data k = none ∧
      ((c.Add now k v3 ttl3).cache.Add now2 k v4 ttl4).err = none := by
  have h1 : (c.Add now k v3 ttl3).err = some (errorsNew "entry exists") := by
    simp [memoryCache.Add, hpres]
  have h2 : mapLookup (c.Add now k v3 ttl3).cache.data k = none := by
    simp [memoryCache.Add, hpres, hexp, mapLookup_mapDelete_self]
  refine ⟨h1, h2, ?_⟩
  generalize hc1 : (memoryCache.Add c now k v3 ttl3).cache = c1 at h2
  simp [memoryCache.Add, h2]

theorem C4_witness :
    mapLookup (⟨[("evt1", ⟨[1], 5⟩)]⟩ : memoryCache).data "evt1" =
        some ⟨[1], 5⟩ ∧
      (⟨[1], 5⟩ : cacheEntry).Expires < 10 ∧
      ((memoryCache.Add ⟨[("evt1", ⟨[1], 5⟩)]⟩ 10 "evt1" [3] 900).err =
          some (errorsNew "entry exists") ∧
        mapLookup (memoryCache.Add ⟨[("evt1", ⟨[1], 5⟩)]⟩ 10 "evt1" [3]
            900).cache.data "evt1" = none ∧
        ((memoryCache.Add ⟨[("evt1", ⟨[1], 5⟩)]⟩ 10 "evt1" [3] 900).cache.Add
            11 "evt1" [4] 900).err = none) :=
  ⟨by decide, by decide,
    C4_add_on_expired ⟨[("evt1", ⟨[1], 5⟩)]⟩ 10 11 "evt1" ⟨[1], 5⟩ [3] 900 [4]
      900 (by decide) (by decide)⟩

/-- C5: `Get` on an absent key fails with the cache-miss error and no
success value; `Get` on an expired key removes the entry and fails with the
cache-miss error and no success value. -/
theorem C5_get_miss (c : memoryCache) (now : Int) (k : String) :
    (mapLookup c.data k = none →
        (c.Get now k).err = some cacheMissError ∧
          (c.Get now k).value = none ∧ (c.Get now k).cache = c) ∧
      (∀ e, mapLookup c.data k = some e → e.Expires < now →
        (c.Get now k).err = some cacheMissError ∧
          (c.Get now k).value = none ∧
          mapLookup (c.Get now k).cache.data k = none) := by
  constructor
  · intro habs
    simp [memoryCache.Get, habs]
  · intro e hpres hexp
    simp [memoryCache.Get, hpres, hexp, mapLookup_mapDelete_self]

theorem C5_witness :
    ((memoryCache.Get ⟨[("x", ⟨[1], 5⟩)]⟩ 10 "y").err = some cacheMissError ∧
        (memoryCache.Get ⟨[("x", ⟨[1], 5⟩)]⟩ 10 "y").value = none ∧
        (memoryCache.Get ⟨[("x", ⟨[1], 5⟩)]⟩ 10 "y").cache =
          ⟨[("x", ⟨[1], 5⟩)]⟩) ∧
      ((memoryCache.Get ⟨[("x", ⟨[1], 5⟩)]⟩ 10 "x").err = some cacheMissError ∧
        (memoryCache.Get ⟨[("x", ⟨[1], 5⟩)]⟩ 10 "x").value = none ∧
        mapLookup (memoryCache.Get ⟨[("x", ⟨[1], 5⟩)]⟩ 10 "x").cache.data "x" =
          none) :=
  ⟨(C5_get_miss ⟨[("x", ⟨[1], 5⟩)]⟩ 10 "y").1 (by decide),
    (C5_get_miss ⟨[("x", ⟨[1], 5⟩)]⟩ 10 "x").2 ⟨[1], 5⟩ (by decide) (by decide)⟩

/-- C6 counterexample: add "evt1" at time 0 with ttl 1; at time 2 the entry
is expired and `Get` returns the cache-miss error — but `Get` also removes
the entry, so the subsequent `Add` finds the key absent and succeeds with a
`nil` error rather than the entry-exists error the claim requires. -/
theorem C6_counterexample :
    (((memoryCache.Add ⟨[]⟩ 0 "evt1" [1] 1).cache.Get 2 "evt1").err =
        some cacheMissError) ∧
      ((((memoryCache.Add ⟨[]⟩ 0 "evt1" [1] 1).cache.Get 2 "evt1").cache.Add 2
          "evt1" [3] 900).err = none) ∧
      ¬ ((((memoryCache.Add ⟨[]⟩ 0 "evt1" [1] 1).cache.Get 2 "evt1").cache.Add
          2 "evt1" [3] 900).err = some (errorsNew "entry exists")) := by
  decide

/-- C6 amended: once an entry has expired, `Get` yields the cache-miss
error and removes the entry, so a subsequent `Add` of that key succeeds;
the entry-exists-for-one-call behaviour occurs only when `Add` is issued on
the still-present expired entry without the intervening `Get`: that `Add`
yields the entry-exists error, and a following `Add` then succeeds. -/
theorem C6_after_expiry (c : memoryCache) (now now2 : Int) (k : String)
    (e : cacheEntry) (v3 : Bytes) (ttl3 : Int) (v4 : Bytes) (ttl4 : Int)
    (hpres : mapLookup c.data k = some e) (hexp : e.Expires < now) :
    ((c.Get now k).err = some cacheMissError ∧
        ((c.Get now k).cache.Add now2 k v3 ttl3).err = none) ∧
      ((c.Add now k v3 ttl3).err = some (errorsNew "entry exists") ∧
        ((c.Add now k v3 ttl3).cache.Add now2 k v4 ttl4).err = none) := by
  have hget : mapLookup (c.Get now k).cache.data k = none := by
    simp [memoryCache.Get, hpres, hexp, mapLookup_mapDelete_self]
  have hadd : mapLookup (c.Add now k v3 ttl3).cache.data k = none := by
    simp [memoryCache.Add, hpres, hexp, mapLookup_mapDelete_self]
  refine ⟨⟨by simp [memoryCache.Get, hpres, hexp], ?_⟩,
    ⟨by simp [memoryCache.Add, hpres], ?_⟩⟩
  · generalize hc1 : (memoryCache.Get c now k).cache = c1 at hget
    simp [memoryCache.Add, hget]
  · generalize hc2 : (memoryCache.Add c now k v3 ttl3).cache = c2 at hadd
    simp [memoryCache.Add, hadd]

theorem C6_after_expiry_witness :
    mapLookup (⟨[("evt1", ⟨[1], 1⟩)]⟩ : memoryCache).data "evt1" =
        some ⟨[1], 1⟩ ∧
      (⟨[1], 1⟩ : cacheEntry).Expires < 2 ∧
      (((memoryCache.Get ⟨[("evt1", ⟨[1], 1⟩)]⟩ 2 "evt1").err =
            some cacheMissError ∧
          ((memoryCache.Get ⟨[("evt1", ⟨[1], 1⟩)]⟩ 2 "evt1").cache.Add 3 "evt1"
              [3] 900).err = none) ∧
        ((memoryCache.Add ⟨[("evt1", ⟨[1], 1⟩)]⟩ 2 "evt1" [3] 900).err =
            some (errorsNew "entry exists") ∧
          ((memoryCache.Add ⟨[("evt1", ⟨[1], 1⟩)]⟩ 2 "evt1" [3] 900).cache.Add
              3 "evt1" [4] 900).err = none)) :=
  ⟨by decide, by decide,
    C6_after_expiry ⟨[("evt1", ⟨[1], 1⟩)]⟩ 2 3 "evt1" ⟨[1], 1⟩ [3] 900 [4] 900
      (by decide) (by decide)⟩

/-- C7: when `Get` succeeds, the key-to-entry mapping after the call is the
one from before the call, unchanged. -/
theorem C7_get_success_frame (c : memoryCache) (now : Int) (k : String)
    (hsucc : (c.Get now k).err = none) : (c.Get now k).cache = c := by
  unfold memoryCache.Get at hsucc ⊢
  cases hlook : mapLookup c.data k with
  | none => simp [hlook] at hsucc
  | some e =>
    by_cases hexp : e.Expires < now
    · simp [hlook, hexp] at hsucc
    · simp [hlook, hexp]

theorem C7_witness :
    (memoryCache.Get ⟨[("x", ⟨[1], 5⟩)]⟩ 2 "x").err = none ∧
      (memoryCache.Get ⟨[("x", ⟨[1], 5⟩)]⟩ 2 "x").cache = ⟨[("x", ⟨[1], 5⟩)]⟩ :=
  ⟨by decide, C7_get_success_frame ⟨[("x", ⟨[1], 5⟩)]⟩ 2 "x" (by decide)⟩

theorem get_on_expired (c : memoryCache) (now : Int) (k : String)
    (e : cacheEntry) (hpres : mapLookup c.data k = some e)
    (hexp : e.Expires < now) :
    c.Get now k = ⟨⟨mapDelete c.data k⟩, none, some cacheMissError⟩ := by
  simp [memoryCache.Get, hpres, hexp]

/-- C8 counterexample: `Add` with a negative ttl on an absent key succeeds
and leaves the key bound to an entry that is already expired at the very
time the operation used, so the key is neither absent nor unexpired right
after the operation. -/
theorem C8_counterexample :
    (memoryCache.Add ⟨[]⟩ 0 "evt1" [1] (-1)).err = none ∧
      mapLookup (memoryCache.Add ⟨[]⟩ 0 "evt1" [1] (-1)).cache.data "evt1" =
        some ⟨[1], -1⟩ ∧
      keyAbsentOrUnexpired (memoryCache.Add ⟨[]⟩ 0 "evt1" [1]
        (-1)).cache.data "evt1" 0 = false := by
  decide

/-- C8 amended: after a `Get`, or after an `Add` whose ttl is nonnegative,
the operated key is either absent or bound to an entry unexpired at the
operation's time; and an entry found expired by either operation is removed
by that same operation, whatever the ttl. -/
theorem C8_lazy_expiry (c : memoryCache) (now : Int) (k : String)
    (v : Bytes) (ttl : Int) :
    (0 ≤ ttl →
        keyAbsentOrUnexpired (c.Add now k v ttl).cache.data k now = true) ∧
      keyAbsentOrUnexpired (c.Get now k).cache.data k now = true ∧
      (∀ e, mapLookup c.data k = some e → e.Expires < now →
        mapLookup (c.Add now k v ttl).cache.data k = none ∧
          mapLookup (c.Get now k).cache.data k = none) := by
  refine ⟨?_, ?_, ?_⟩
  · intro httl
    cases hlook : mapLookup c.data k with
    | none =>
      have hnotlt : ¬ (now + ttl < now) := by omega
      simp [memoryCache.Add, hlook, keyAbsentOrUnexpired,
        mapLookup_mapInsert_self, hnotlt]
    | some e =>
      by_cases hexp : e.Expires < now
      · simp [memoryCache.Add, hlook, hexp, keyAbsentOrUnexpired,
          mapLookup_mapDelete_self]
      · simp [memoryCache.Add, hlook, hexp, keyAbsentOrUnexpired]
  · cases hlook : mapLookup c.data k with
    | none => simp [memoryCache.Get, hlook, keyAbsentOrUnexpired]
    | some e =>
      by_cases hexp : e.Expires < now
      · simp [memoryCache.Get, hlook, hexp, keyAbsentOrUnexpired,
          mapLookup_mapDelete_self]
      · simp [memoryCache.Get, hlook, hexp, keyAbsentOrUnexpired]
  · intro e hpres hexp
    constructor
    · simp [memoryCache.Add, hpres, hexp, mapLookup_mapDelete_self]
    · simp [memoryCache.Get, hpres, hexp, mapLookup_mapDelete_self]

theorem C8_lazy_expiry_witness :
    keyAbsentOrUnexpired
        (memoryCache.Add ⟨[("evt1", ⟨[9], 1⟩)]⟩ 2 "evt1" [1]
          900).cache.data "evt1" 2 = true ∧
      keyAbsentOrUnexpired
        (memoryCache.Get ⟨[("evt1", ⟨[9], 1⟩)]⟩ 2 "evt1").cache.data "evt1"
        2 = true ∧
      mapLookup (memoryCache.Add ⟨[("evt1", ⟨[9], 1⟩)]⟩ 2 "evt1" [1]
          900).cache.data "evt1" = none ∧
      mapLookup (memoryCache.Get ⟨[("evt1", ⟨[9], 1⟩)]⟩ 2
          "evt1").cache.data "evt1" = none :=
  ⟨(C8_lazy_expiry ⟨[("evt1", ⟨[9], 1⟩)]⟩ 2 "evt1" [1] 900).1 (by decide),
    (C8_lazy_expiry ⟨[("evt1", ⟨[9], 1⟩)]⟩ 2 "evt1" [1] 900).2.1,
    ((C8_lazy_expiry ⟨[("evt1", ⟨[9], 1⟩)]⟩ 2 "evt1" [1] 900).2.2 ⟨[9], 1⟩
        (by decide) (by decide)).1,
    ((C8_lazy_expiry ⟨[("evt1", ⟨[9], 1⟩)]⟩ 2 "evt1" [1] 900).2.2 ⟨[9], 1⟩
        (by decide) (by decide)).2⟩

/-- C9: an error whose dynamic type does not implement the cache-miss
capability (no `CacheMiss` method) is never classified as a cache miss by
`IsCacheMiss`. -/
theorem C9_no_capability_not_miss (err : GoError)
    (h : err.cacheMissMethod = none) : IsCacheMiss err = false := by
  simp [IsCacheMiss, h]

theorem C9_witness :
    ((errorsNew "entry exists").cacheMissMethod = none ∧
        IsCacheMiss (errorsNew "entry exists") = false) ∧
      ((errorsNew "storage failure").cacheMissMethod = none ∧
        IsCacheMiss (errorsNew "storage failure") = false) :=
  ⟨⟨by decide, C9_no_capability_not_miss (errorsNew "entry exists")
      (by decide)⟩,
    ⟨by decide, C9_no_capability_not_miss (errorsNew "storage failure")
      (by decide)⟩⟩

/-- C10 counterexample: with ttl = 0 on an absent (empty-string) key, `Add`
succeeds, but the stored expiry equals the insertion time — it is not in
the past — and an immediately following `Get` at that same time returns the
entry successfully instead of the cache-miss error the claim requires. -/
theorem C10_counterexample :
    (memoryCache.Add ⟨[]⟩ 0 "" [1] 0).err = none ∧
      mapLookup (memoryCache.Add ⟨[]⟩ 0 "" [1] 0).cache.data "" =
        some ⟨[1], 0⟩ ∧
      ¬ ((⟨[1], 0⟩ : cacheEntry).Expires < 0) ∧
      ((memoryCache.Add ⟨[]⟩ 0 "" [1] 0).cache.Get 0 "").err = none ∧
      ((memoryCache.Add ⟨[]⟩ 0 "" [1] 0).cache.Get 0 "").value =
        some ⟨[1], 0⟩ := by
  decide

/-- C10 amended: `Add` validates nothing — it accepts an empty-string key
and any non-positive ttl without error, storing an entry with expiry
`now + ttl`.  With ttl strictly negative the expiry is already in the past
and a `Get` at the same instant yields the cache-miss error and removes the
entry; with ttl = 0 the expiry equals the insertion instant, and a `Get`
misses (and removes the entry) exactly at every strictly later instant. -/
theorem C10_no_validation (c : memoryCache) (now : Int) (k : String)
    (v : Bytes) (ttl : Int) (habs : mapLookup c.data k = none)
    (httl : ttl ≤ 0) :
    (c.Add now k v ttl).err = none ∧
      mapLookup (c.Add now k v ttl).cache.data k = some ⟨v, now + ttl⟩ ∧
      (ttl < 0 →
        now + ttl < now ∧
          ((c.Add now k v ttl).cache.Get now k).err = some cacheMissError ∧
          mapLookup ((c.Add now k v ttl).cache.Get now k).cache.data k =
            none) ∧
      (∀ now2, now < now2 →
        ((c.Add now k v ttl).cache.Get now2 k).err = some cacheMissError ∧
          mapLookup ((c.Add now k v ttl).cache.Get now2 k).cache.data k =
            none) := by
  have hstore : mapLookup (memoryCache.Add c now k v ttl).cache.data k =
      some ⟨v, now + ttl⟩ := by
    simp [memoryCache.Add, habs, mapLookup_mapInsert_self]
  refine ⟨by simp [memoryCache.Add, habs], hstore, ?_, ?_⟩
  · intro hneg
    have hlt : (⟨v, now + ttl⟩ : cacheEntry).Expires < now := by simp; omega
    rw [get_on_expired _ now k ⟨v, now + ttl⟩ hstore hlt]
    exact ⟨by omega, rfl, mapLookup_mapDelete_self _ k⟩
  · intro now2 h2
    have hlt : (⟨v, now + ttl⟩ : cacheEntry).Expires < now2 := by simp; omega
    rw [get_on_expired _ now2 k ⟨v, now + ttl⟩ hstore hlt]
    exact ⟨rfl, mapLookup_mapDelete_self _ k⟩

theorem C10_no_validation_witness :
    (memoryCache.Add ⟨[]⟩ 0 "" [1] (-5)).err = none ∧
      mapLookup (memoryCache.Add ⟨[]⟩ 0 "" [1] (-5)).cache.data "" =
        some ⟨[1], 0 + (-5)⟩ ∧
      ((0 : Int) + (-5) < 0 ∧
        ((memoryCache.Add ⟨[]⟩ 0 "" [1] (-5)).cache.Get 0 "").err =
          some cacheMissError ∧
        mapLookup ((memoryCache.Add ⟨[]⟩ 0 "" [1] (-5)).cache.Get 0
          "").cache.data "" = none) ∧
      (((memoryCache.Add ⟨[]⟩ 0 "" [1] (-5)).cache.Get 1 "").err =
          some cacheMissError ∧
        mapLookup ((memoryCache.Add ⟨[]⟩ 0 "" [1] (-5)).cache.Get 1
          "").cache.data "" = none) :=
  ⟨(C10_no_validation ⟨[]⟩ 0 "" [1] (-5) (by decide) (by decide)).1,
    (C10_no_validation ⟨[]⟩ 0 "" [1] (-5) (by decide) (by decide)).2.1,
    (C10_no_validation ⟨[]⟩ 0 "" [1] (-5) (by decide) (by decide)).2.2.1
      (by decide),
    (C10_no_validation ⟨[]⟩ 0 "" [1] (-5) (by decide) (by decide)).2.2.2 1
      (by decide)⟩
